import Mathlib

/-!
Verification of the gbindgen generation pipeline (`src/gmain.rs`).

This file gives a shallow embedding of the pipeline in `gmain.rs`:

* the version-macro block emitted into `bindgen_config.after_includes`
  (the `format!` raw string at lines 96–111), together with the C
  semantics of the emitted `CHECK_VERSION` comparison macro;
* the `heck` crate `to_shouty_snake_case` transformation (ASCII-restricted);
* the `Config` struct, its strict (deny-unknown-fields, all-defaults)
  TOML schema, `Config::from_file` and `Config::from_root_or_default`;
* `load_bindings`, with the external collaborators (`Cargo::load`,
  `semver::Version::parse`, the `Builder`-based generator, the
  filesystem) supplied as parameters, and with Rust panics
  (`unwrap` / `expect`) modelled as an explicit `panicked` outcome
  distinct from `std::process::exit(code)`;
* the `main` output stage: file mode with `--verify` versus stream mode.

Machine integers of the source (`u64` semver components) are modelled as
`Nat`: no arithmetic in the translated code can overflow or wrap, the
values are only compared and printed.
-/

/-- C evaluation of the emitted comparison macro body
`(MAJ > (major) || (MAJ == (major) && MIN > (minor)) || (MAJ == (major) && MIN == (minor) && MIC >= (micro)))`
where `MAJ`/`MIN`/`MIC` are the embedded version constants `(M, N, P)`
and `(m, n, p)` are the macro arguments (gmain.rs lines 101–105). -/
def checkVersion (M N P m n p : Nat) : Bool :=
  (decide (M > m) || (decide (M == m) && decide (N > n))
    || (decide (M == m) && decide (N == n) && decide (P >= p)))

/-- Triple `(m, n, p)` is lexicographically less than or equal to `(M, N, P)`
under (major, minor, micro) ordering. -/
def lexLE (a b : Nat × Nat × Nat) : Prop :=
  a.1 < b.1 ∨ (a.1 = b.1 ∧ (a.2.1 < b.2.1 ∨ (a.2.1 = b.2.1 ∧ a.2.2 ≤ b.2.2)))

/-- The version-macro text block emitted by `load_bindings` into
`bindgen_config.after_includes` (gmain.rs lines 96–111), transcribed
literal-for-literal from the `format!` raw string; `ns` is the
already-shouty-snake-cased namespace, and the version components are
printed with `toString` exactly as the Rust `Display` instance for integers. -/
def afterIncludes (ns : String) (major minor micro : Nat) : String :=
  "\n#define " ++ ns ++ "_MAJOR_VERSION " ++ toString major
    ++ "\n#define " ++ ns ++ "_MINOR_VERSION " ++ toString minor
    ++ "\n#define " ++ ns ++ "_MICRO_VERSION " ++ toString micro
    ++ "\n\n#define " ++ ns ++ "_CHECK_VERSION(major,minor,micro) \\\n    ("
    ++ ns ++ "_MAJOR_VERSION > (major) ||                                   \\\n     ("
    ++ ns ++ "_MAJOR_VERSION == (major) && " ++ ns ++ "_MINOR_VERSION > (minor)) || \\\n     ("
    ++ ns ++ "_MAJOR_VERSION == (major) && " ++ ns ++ "_MINOR_VERSION == (minor) && \\\n      "
    ++ ns ++ "_MICRO_VERSION >= (micro)))\n"

/-- Word-scanning mode of heck 0.3 `transform` (`WordMode`). -/
inductive WordMode
  | boundary
  | lowercase
  | uppercase
deriving DecidableEq, Repr

/-- The fragment `w[a..b]` of a character list (heck slices at character
boundaries, so byte offsets and character positions delimit the same
fragments). -/
def sliceChars (w : List Char) (a b : Nat) : List Char :=
  (w.drop a).take (b - a)

/-- The inner scanning loop of heck 0.3 `transform`, translated to a
recursion over the enumerated characters of one word: `init` is the start
of the current fragment, `mode` tracks the case of the previous cased
character; underscores are skipped at fragment starts; a fragment ends
before an underscore or an upper after a lower, and ends before the last
upper of an upper run followed by a lower. Character classes are the
ASCII restriction of the Unicode Rust `is_lowercase`/`is_uppercase`. -/
def transformWordLoop (w : List Char) :
    List (Nat × Char) → Nat → WordMode → List (List Char)
  | [], _, _ => []
  | (i, c) :: rest, init, mode =>
    if c = '_' then
      transformWordLoop w rest (if init = i then init + 1 else init) mode
    else
      match rest with
      | (nextI, next) :: _ =>
        let nextMode := if c.isLower then WordMode.lowercase
          else if c.isUpper then WordMode.uppercase else mode
        if next = '_' ∨ (nextMode = WordMode.lowercase ∧ next.isUpper = true) then
          sliceChars w init nextI :: transformWordLoop w rest nextI WordMode.boundary
        else if mode = WordMode.uppercase ∧ c.isUpper = true ∧ next.isLower = true then
          sliceChars w init i :: transformWordLoop w rest i WordMode.boundary
        else
          transformWordLoop w rest init nextMode
      | [] => [w.drop init]

/-- Fragments of one word under the heck 0.3 `transform` scanning loop. -/
def transformWord (w : List Char) : List (List Char) :=
  transformWordLoop w w.enum 0 WordMode.boundary

/-- ASCII approximation of `unicode_words` (unicode-segmentation) as used
by heck 0.3: maximal runs of alphanumeric-or-underscore characters
(underscore is UAX-29 ExtendNumLet, so it joins words); every other
character separates words and is dropped. -/
def unicodeWords (s : List Char) : List (List Char) :=
  (s.splitOnP (fun c => !(c.isAlphanum || c == '_'))).filter (· ≠ [])

/-- heck 0.3 `to_shouty_snake_case` (ASCII-restricted): split the input
into words, split each word into fragments at case boundaries and
underscores, uppercase every fragment, and join all fragments with a
single underscore. -/
def toShoutySnakeCase (s : String) : String :=
  String.mk (List.intercalate ['_']
    (((unicodeWords s.data).map transformWord).flatten.map
      (fun frag => frag.map Char.toUpper)))

/-- The composed version-macro block as built by `load_bindings`: the
configured namespace is shouty-snake-cased (gmain.rs line 107) and
substituted into the raw `format!` template. -/
def versionMacroBlock (ns : String) (major minor micro : Nat) : String :=
  afterIncludes (toShoutySnakeCase ns) major minor micro

/-- The text `s` contains the newline-terminated line `#define name value`
as a contiguous substring. -/
def emitsDefine (s name value : String) : Prop :=
  List.IsInfix ("#define " ++ name ++ " " ++ value ++ "\n").data s.data

/-- The `Config` struct (gmain.rs lines 30–39): snake-case schema with
`deny_unknown_fields` and per-field defaults. -/
structure Config where
  sys_includes : List String
  «namespace» : Option String
deriving DecidableEq, Repr

/-- Rust `Config::default()`: both fields take their `Default` values. -/
def Config.default : Config :=
  ⟨[], none⟩

/-- Abstract TOML value as relevant to the `Config` schema: a string, an
array of strings, or any other shape (which the typed deserializer
rejects for both known fields). -/
inductive TomlValue
  | str (s : String)
  | strList (l : List String)
  | other
deriving DecidableEq, Repr

/-- Abstract content of a candidate configuration file: either text that
fails TOML syntax parsing (with the parse message), or a parsed table of
key–value entries in file order. -/
inductive ConfigFileContent
  | malformed (msg : String)
  | table (entries : List (String × TomlValue))
deriving DecidableEq, Repr

/-- Typed strict deserialization of a parsed entry list into `Config`
(serde with `deny_unknown_fields`, `default` and snake-case fields): each
field may appear at most once, unknown keys and wrongly-typed values are
errors, missing fields take their defaults. `si` and `ns` accumulate the
already-seen field values. -/
def parseConfigEntries :
    List (String × TomlValue) → Option (List String) → Option (Option String) →
      Except String Config
  | [], si, ns => .ok ⟨si.getD [], ns.getD none⟩
  | (k, v) :: rest, si, ns =>
    if k = "sys_includes" then
      match si, v with
      | some _, _ => .error "duplicate field sys_includes"
      | none, .strList l => parseConfigEntries rest (some l) ns
      | none, _ => .error "invalid type for sys_includes"
    else if k = "namespace" then
      match ns, v with
      | some _, _ => .error "duplicate field namespace"
      | none, .str s => parseConfigEntries rest si (some (some s))
      | none, _ => .error "invalid type for namespace"
    else
      .error ("unknown field " ++ k)

/-- Rust `toml::from_str::<Config>` over the abstract file content. -/
def tomlFromStr : ConfigFileContent → Except String Config
  | .malformed msg => .error msg
  | .table entries => parseConfigEntries entries none none

/-- The filesystem as seen by the configuration loader: existence test
(`Path::exists`) and text read (`fs::read_to_string`, with `none`
modelling an I/O failure), keyed by path components. -/
structure ConfigFS where
  exist : List String → Bool
  read : List String → Option ConfigFileContent

/-- Rust `Config::from_file` (gmain.rs lines 43–55): a read failure reports the
file path, a parse failure wraps the underlying parser message. -/
def Config.from_file (fs : ConfigFS) (file_name : List String) : Except String Config :=
  match fs.read file_name with
  | none =>
    .error ("Couldn\x27t open config file: " ++ String.intercalate "/" file_name ++ ".")
  | some content =>
    match tomlFromStr content with
    | .ok x => .ok x
    | .error e => .error ("Couldn\x27t parse config file: " ++ e ++ ".")

/-- Result of a Rust computation that can panic (`unwrap` / `expect`);
the payload records the panic message (for an unwrapped `Err` value, the
text of the wrapped error). -/
inductive PanicOr (α : Type)
  | ok (a : α)
  | panicked (msg : String)
deriving DecidableEq, Repr

/-- Rust `Config::from_root_or_default` (gmain.rs lines 58–66): look for
`gbindgen.toml` directly inside `root`; an absent file yields the default
configuration, a present one is loaded with `Config::from_file(..).unwrap()`,
so a read or parse failure is a panic, not a recoverable error. -/
def Config.from_root_or_default (fs : ConfigFS) (root : List String) : PanicOr Config :=
  let c := root ++ ["gbindgen.toml"]
  if fs.exist c then
    match Config.from_file fs c with
    | .ok cfg => .ok cfg
    | .error e => .panicked e
  else
    .ok Config.default

/-- Parsed semantic version (`semver::Version`), restricted to the
components the program reads. -/
structure SemVer where
  major : Nat
  minor : Nat
  patch : Nat
deriving DecidableEq, Repr

/-- The slice of the `Cargo` metadata that `load_bindings` consumes: the
declared version string of the binding crate (`binding_crate_ref().version`),
the located binding crate directory (`find_crate_dir`), and the binding
crate name. -/
structure CargoLib where
  version : Option String
  crateDir : Option (List String)
  crateName : String
deriving DecidableEq, Repr

/-- The fields of the external `bindgen::Config` that `load_bindings`
sets before generation (gmain.rs 89–111). -/
structure BindgenConfig where
  tab_width : Nat
  sys_includes : List String
  after_includes : Option String
deriving DecidableEq, Repr

/-- Opaque generated artifact: the rendered bindings content. -/
structure Bindings where
  content : String
deriving DecidableEq, Repr

/-- Result of `load_bindings` as observed by `main`: a value, a returned
`Error` (propagated by `?` and mapped to `exit(1)`), or a Rust panic
(which aborts the process without ever reaching the error arm of `main`). -/
inductive PResult (ε α : Type)
  | ok (a : α)
  | err (e : ε)
  | panicked (msg : String)
deriving DecidableEq, Repr

/-- The external generator capability: the `Builder` chain
`Builder::new().with_config(cfg).with_gobject(gobject).with_header(h).with_cargo(lib).generate()`
collapsed into one function of its inputs. -/
abbrev Generator :=
  BindgenConfig → Bool → String → CargoLib → Except String Bindings

/-- The run environment: results of the external collaborators and the
ambient process state consumed by one run. `cargoLoad` is the result of
`Cargo::load` (gmain.rs 71–78), `semverParse` models
`semver::Version::parse(..).ok()`, `cwd` is `env::current_dir()`, and
`outFS` gives the prior content of files addressed by output path. -/
structure Env where
  cargoLoad : Except String CargoLib
  semverParse : String → Option SemVer
  cfgFS : ConfigFS
  cwd : List String
  outFS : String → Option String

/-- The configuration-root selection of `load_bindings` (gmain.rs 80–87):
use the located binding crate directory when one is found, otherwise fall
back to treating the input path itself as the root. -/
def resolveConfig (fs : ConfigFS) (crateDir : Option (List String))
    (input : List String) : PanicOr Config :=
  match crateDir with
  | some dir => Config.from_root_or_default fs dir
  | none => Config.from_root_or_default fs input

/-- Continuation of `load_bindings` once the configuration is resolved
(gmain.rs 89–122): build `bindgen_config`, parse the crate version —
`.and_then(parse).expect(..)` panics when the version is absent or
unparsable — compose the version-macro preamble —
`config.namespace.unwrap()` panics when the namespace is omitted — and
finally invoke the external generator, whose error is returned verbatim. -/
def loadBindingsWith (gen : Generator) (env : Env) (lib : CargoLib)
    (config : PanicOr Config) : PResult String Bindings :=
  match config with
  | .panicked m => .panicked m
  | .ok config =>
    match lib.version.bind (fun v => env.semverParse v) with
    | none => .panicked "Failed to parse crate version"
    | some version =>
      match config.«namespace» with
      | none => .panicked "called Option::unwrap on a None value"
      | some ns =>
        let bindgenConfig : BindgenConfig :=
          ⟨4, config.sys_includes,
            some (afterIncludes (toShoutySnakeCase ns)
              version.major version.minor version.patch)⟩
        let header := "/* GObject C binding from Rust " ++ lib.crateName
          ++ " project, generated with gbindgen: DO NOT EDIT. */"
        match gen bindgenConfig true header lib with
        | .ok b => .ok b
        | .error e => .err e

/-- Rust `load_bindings` (gmain.rs 69–122): load the cargo metadata (`?`
propagates its error), resolve the configuration beside the located
binding crate (falling back to the input path), then parse the version
and generate. -/
def loadBindings (gen : Generator) (env : Env) (input : List String) :
    PResult String Bindings :=
  match env.cargoLoad with
  | .error e => .err e
  | .ok lib => loadBindingsWith gen env lib (resolveConfig env.cfgFS lib.crateDir input)

/-- Modelled from the spec: `Bindings::write_to_file` lives in the
`bindgen` module, which is not part of this source tree; per the OutputWriter
contract of the spec it writes/overwrites the target file with the
artifact content and returns whether the resulting content differs from
what the file previously contained, an absent file counting as
differing. -/
def Bindings.write_to_file (b : Bindings) (fs : String → Option String)
    (path : String) : (String → Option String) × Bool :=
  (fun p => if p = path then some b.content else fs p,
    !(fs path == some b.content))

/-- The command-line options `main` consults after logging setup. -/
structure CliArgs where
  input : Option (List String)
  out : Option String
  verify : Bool

/-- How the process run terminates: an explicit exit code (0 for falling
off the end of `main`) or an aborting panic. -/
inductive Outcome
  | exit (code : Nat)
  | panicked (msg : String)
deriving DecidableEq, Repr

/-- Observable result of a run: the termination outcome, the final file
contents by path, and what was streamed to standard output. -/
structure RunResult where
  outcome : Outcome
  files : String → Option String
  stdout : Option String

/-- Rust `main` after logging initialization (gmain.rs 176–204): choose the
input path (the positional argument or the current directory), load the
bindings — a returned error is logged and mapped to `exit(1)`, a panic
aborts — then either write the output file, exiting 2 when `--verify` is
set and the content changed, or stream the bindings to standard
output. -/
def mainRun (gen : Generator) (env : Env) (args : CliArgs) : RunResult :=
  let input := args.input.getD env.cwd
  match loadBindings gen env input with
  | .panicked m => ⟨.panicked m, env.outFS, none⟩
  | .err _ => ⟨.exit 1, env.outFS, none⟩
  | .ok bindings =>
    match args.out with
    | some file =>
      let written := bindings.write_to_file env.outFS file
      if args.verify && written.2 then ⟨.exit 2, written.1, none⟩
      else ⟨.exit 0, written.1, none⟩
    | none => ⟨.exit 0, env.outFS, some bindings.content⟩

/-- The `sys_includes` value provided by a parsed table (first
correctly-typed occurrence). -/
def tableSysIncludes (entries : List (String × TomlValue)) : Option (List String) :=
  entries.findSome? fun e =>
    if e.1 = "sys_includes" then
      match e.2 with
      | .strList l => some l
      | _ => none
    else none

/-- The `namespace` value provided by a parsed table (first
correctly-typed occurrence). -/
def tableNamespace (entries : List (String × TomlValue)) : Option String :=
  entries.findSome? fun e =>
    if e.1 = "namespace" then
      match e.2 with
      | .str s => some s
      | _ => none
    else none

/-- The entry is a recognized field carrying a value of its declared
type. -/
def entryOk (e : String × TomlValue) : Bool :=
  if e.1 = "sys_includes" then
    match e.2 with
    | .strList _ => true
    | _ => false
  else if e.1 = "namespace" then
    match e.2 with
    | .str _ => true
    | _ => false
  else false

/-- A generator stub for concrete runs: succeeds with fixed content. -/
def genStub : Generator :=
  fun _ _ _ _ => .ok ⟨"bindings content"⟩

/-- Concrete model of `semver::Version::parse(..).ok()` recognizing
exactly the string `1.2.3`. -/
def parse123 : String → Option SemVer :=
  fun s => if s == "1.2.3" then some ⟨1, 2, 3⟩ else none

/-- A filesystem with no configuration file anywhere. -/
def fsNoConfig : ConfigFS :=
  ⟨fun _ => false, fun _ => none⟩

/-- A filesystem holding a single `gbindgen.toml` directly inside the
root `r`, with the given parsed table as content. -/
def fsTableR (entries : List (String × TomlValue)) : ConfigFS :=
  ⟨fun p => p == ["r", "gbindgen.toml"],
    fun p => if p == ["r", "gbindgen.toml"] then some (.table entries) else none⟩

/-- Run environment whose configuration omits the namespace: crate
version `1.2.3`, crate directory `r`, no configuration file. -/
def envNoNamespace : Env :=
  ⟨.ok ⟨some "1.2.3", some ["r"], "mylib"⟩, parse123, fsNoConfig, ["cwd"], fun _ => none⟩

/-- Run environment whose crate version string does not parse. -/
def envBadVersion : Env :=
  ⟨.ok ⟨some "garbage", some ["r"], "mylib"⟩, parse123, fsNoConfig, ["cwd"], fun _ => none⟩

/-- Run environment whose configuration file contains an unrecognized
field. -/
def envUnknownField : Env :=
  ⟨.ok ⟨some "1.2.3", some ["r"], "mylib"⟩, parse123,
    fsTableR [("unknown_field", .other)], ["cwd"], fun _ => none⟩

/-- Run environment on which generation succeeds: configured namespace
`MyLib`, crate version `1.2.3`, no prior output files. -/
def envOk : Env :=
  ⟨.ok ⟨some "1.2.3", some ["r"], "mylib"⟩, parse123,
    fsTableR [("namespace", .str "MyLib")], ["cwd"], fun _ => none⟩

/-- Run environment in which the binding crate directory could not be
located (`find_crate_dir` returned nothing). -/
def envNoDir : Env :=
  ⟨.ok ⟨some "1.2.3", none, "mylib"⟩, parse123, fsNoConfig, ["cwd"], fun _ => none⟩

/-- File-mode command line with `--verify`: `-o out.h --verify`. -/
def argsFileVerify : CliArgs :=
  ⟨none, some "out.h", true⟩

/-- Stream-mode command line: no output path. -/
def argsStream : CliArgs :=
  ⟨none, none, true⟩

/-- C1: the emitted `CHECK_VERSION` macro body evaluates true iff the
embedded `(M, N, P)` version is lexicographically ≥ the three arguments
`(m, n, p)`; in particular for embedded version `(1,2,3)`:
`CHECK_VERSION(1,2,3)` is true, `CHECK_VERSION(1,2,4)` is false,
`CHECK_VERSION(1,3,0)` is false, `CHECK_VERSION(0,9,9)` is true and
`CHECK_VERSION(1,2,2)` is true. -/
theorem checkVersion_iff_lexLE :
    (∀ M N P m n p : Nat, checkVersion M N P m n p = true ↔ lexLE (m, n, p) (M, N, P))
      ∧ checkVersion 1 2 3 1 2 3 = true
      ∧ checkVersion 1 2 3 1 2 4 = false
      ∧ checkVersion 1 2 3 1 3 0 = false
      ∧ checkVersion 1 2 3 0 9 9 = true
      ∧ checkVersion 1 2 3 1 2 2 = true := by
  refine ⟨fun M N P m n p => ?_, by decide, by decide, by decide, by decide, by decide⟩
  simp only [checkVersion, lexLE, Bool.or_eq_true, Bool.and_eq_true, decide_eq_true_eq,
    beq_iff_eq]
  omega

theorem infix_of_append_eq (pre mid post h : String) (e : pre ++ mid ++ post = h) :
    List.IsInfix mid.data h.data :=
  ⟨pre.data, post.data, by rw [← e]; simp⟩

theorem nlDefine_split : ("\n#define " : String) = "\n" ++ "#define " := by decide

theorem nlnlDefine_split : ("\n\n#define " : String) = "\n" ++ "\n#define " := by decide

theorem majorSp_split : ("_MAJOR_VERSION " : String) = "_MAJOR_VERSION" ++ " " := by decide

theorem minorSp_split : ("_MINOR_VERSION " : String) = "_MINOR_VERSION" ++ " " := by decide

theorem microSp_split : ("_MICRO_VERSION " : String) = "_MICRO_VERSION" ++ " " := by decide

theorem afterIncludes_defines_major (ns : String) (M N P : Nat) :
    emitsDefine (afterIncludes ns M N P) (ns ++ "_MAJOR_VERSION") (toString M) := by
  unfold emitsDefine
  exact infix_of_append_eq "\n"
    ("#define " ++ (ns ++ "_MAJOR_VERSION") ++ " " ++ toString M ++ "\n")
    ("#define " ++ ns ++ "_MINOR_VERSION " ++ toString N
      ++ "\n#define " ++ ns ++ "_MICRO_VERSION " ++ toString P
      ++ "\n\n#define " ++ ns ++ "_CHECK_VERSION(major,minor,micro) \\\n    ("
      ++ ns ++ "_MAJOR_VERSION > (major) ||                                   \\\n     ("
      ++ ns ++ "_MAJOR_VERSION == (major) && " ++ ns ++ "_MINOR_VERSION > (minor)) || \\\n     ("
      ++ ns ++ "_MAJOR_VERSION == (major) && " ++ ns ++ "_MINOR_VERSION == (minor) && \\\n      "
      ++ ns ++ "_MICRO_VERSION >= (micro)))\n")
    (afterIncludes ns M N P)
    (by simp only [afterIncludes, nlDefine_split, nlnlDefine_split, majorSp_split,
      minorSp_split, microSp_split, String.append_assoc])

theorem afterIncludes_defines_minor (ns : String) (M N P : Nat) :
    emitsDefine (afterIncludes ns M N P) (ns ++ "_MINOR_VERSION") (toString N) := by
  unfold emitsDefine
  exact infix_of_append_eq ("\n#define " ++ ns ++ "_MAJOR_VERSION " ++ toString M ++ "\n")
    ("#define " ++ (ns ++ "_MINOR_VERSION") ++ " " ++ toString N ++ "\n")
    ("#define " ++ ns ++ "_MICRO_VERSION " ++ toString P
      ++ "\n\n#define " ++ ns ++ "_CHECK_VERSION(major,minor,micro) \\\n    ("
      ++ ns ++ "_MAJOR_VERSION > (major) ||                                   \\\n     ("
      ++ ns ++ "_MAJOR_VERSION == (major) && " ++ ns ++ "_MINOR_VERSION > (minor)) || \\\n     ("
      ++ ns ++ "_MAJOR_VERSION == (major) && " ++ ns ++ "_MINOR_VERSION == (minor) && \\\n      "
      ++ ns ++ "_MICRO_VERSION >= (micro)))\n")
    (afterIncludes ns M N P)
    (by simp only [afterIncludes, nlDefine_split, nlnlDefine_split, majorSp_split,
      minorSp_split, microSp_split, String.append_assoc])

theorem afterIncludes_defines_micro (ns : String) (M N P : Nat) :
    emitsDefine (afterIncludes ns M N P) (ns ++ "_MICRO_VERSION") (toString P) := by
  unfold emitsDefine
  exact infix_of_append_eq ("\n#define " ++ ns ++ "_MAJOR_VERSION " ++ toString M
      ++ "\n#define " ++ ns ++ "_MINOR_VERSION " ++ toString N ++ "\n")
    ("#define " ++ (ns ++ "_MICRO_VERSION") ++ " " ++ toString P ++ "\n")
    ("\n#define " ++ ns ++ "_CHECK_VERSION(major,minor,micro) \\\n    ("
      ++ ns ++ "_MAJOR_VERSION > (major) ||                                   \\\n     ("
      ++ ns ++ "_MAJOR_VERSION == (major) && " ++ ns ++ "_MINOR_VERSION > (minor)) || \\\n     ("
      ++ ns ++ "_MAJOR_VERSION == (major) && " ++ ns ++ "_MINOR_VERSION == (minor) && \\\n      "
      ++ ns ++ "_MICRO_VERSION >= (micro)))\n")
    (afterIncludes ns M N P)
    (by simp only [afterIncludes, nlDefine_split, nlnlDefine_split, majorSp_split,
      minorSp_split, microSp_split, String.append_assoc])

theorem shouty_MYLIB : toShoutySnakeCase "MYLIB" = "MYLIB" := by decide

/-- C6: for every namespace string and version triple, the composed macro
block defines the three scalar constants `NS_MAJOR_VERSION`,
`NS_MINOR_VERSION` and `NS_MICRO_VERSION` whose values are the components
of the triple, where the prefix `NS` is the input namespace transformed to
upper snake case; in particular package version 2.0.5 with namespace
MYLIB yields `MYLIB_MAJOR_VERSION 2`, `MYLIB_MINOR_VERSION 0` and
`MYLIB_MICRO_VERSION 5`. -/
theorem versionMacroBlock_defines_constants :
    (∀ (ns : String) (major minor micro : Nat),
      emitsDefine (versionMacroBlock ns major minor micro)
          (toShoutySnakeCase ns ++ "_MAJOR_VERSION") (toString major)
        ∧ emitsDefine (versionMacroBlock ns major minor micro)
          (toShoutySnakeCase ns ++ "_MINOR_VERSION") (toString minor)
        ∧ emitsDefine (versionMacroBlock ns major minor micro)
          (toShoutySnakeCase ns ++ "_MICRO_VERSION") (toString micro))
      ∧ emitsDefine (versionMacroBlock "MYLIB" 2 0 5) "MYLIB_MAJOR_VERSION" "2"
      ∧ emitsDefine (versionMacroBlock "MYLIB" 2 0 5) "MYLIB_MINOR_VERSION" "0"
      ∧ emitsDefine (versionMacroBlock "MYLIB" 2 0 5) "MYLIB_MICRO_VERSION" "5" := by
  refine ⟨fun ns major minor micro =>
    ⟨afterIncludes_defines_major _ _ _ _, afterIncludes_defines_minor _ _ _ _,
      afterIncludes_defines_micro _ _ _ _⟩, ?_, ?_, ?_⟩
  · have h := afterIncludes_defines_major (toShoutySnakeCase "MYLIB") 2 0 5
    rwa [shouty_MYLIB] at h
  · have h := afterIncludes_defines_minor (toShoutySnakeCase "MYLIB") 2 0 5
    rwa [shouty_MYLIB] at h
  · have h := afterIncludes_defines_micro (toShoutySnakeCase "MYLIB") 2 0 5
    rwa [shouty_MYLIB] at h

/-- C8: version-macro composition is pure and deterministic: two
invocations with identical (namespace, version) inputs produce
byte-identical text blocks, with no dependence on hidden state. -/
theorem versionMacroBlock_deterministic (ns ns' : String) (M M' N N' P P' : Nat)
    (hns : ns = ns') (hM : M = M') (hN : N = N') (hP : P = P') :
    versionMacroBlock ns M N P = versionMacroBlock ns' M' N' P' := by
  rw [hns, hM, hN, hP]

theorem versionMacroBlock_deterministic_witness :
    versionMacroBlock "MyLib" 1 2 3 = versionMacroBlock "MyLib" 1 2 3 :=
  versionMacroBlock_deterministic "MyLib" "MyLib" 1 1 2 2 3 3 rfl rfl rfl rfl

/-- C2 (amended): for every run whose resolved configuration omits the
namespace — the cargo metadata having loaded and the crate version having
parsed — the run fails before invoking the external generator (the result
is the same for every generator): `load_bindings` panics on
`config.namespace.unwrap()`, the process aborts through the panic rather
than taking the error arm that exits with code 1, and no output file is
created or modified. -/
theorem namespace_missing_panics (gen gen' : Generator) (env : Env) (args : CliArgs)
    (lib : CargoLib) (cfg : Config) (v : SemVer)
    (hload : env.cargoLoad = .ok lib)
    (hcfg : resolveConfig env.cfgFS lib.crateDir (args.input.getD env.cwd) = .ok cfg)
    (hv : lib.version.bind (fun s => env.semverParse s) = some v)
    (hns : cfg.«namespace» = none) :
    mainRun gen env args =
        ⟨.panicked "called Option::unwrap on a None value", env.outFS, none⟩
      ∧ mainRun gen env args = mainRun gen' env args
      ∧ (mainRun gen env args).outcome ≠ .exit 1 := by
  have hmain : ∀ g : Generator, mainRun g env args =
      ⟨.panicked "called Option::unwrap on a None value", env.outFS, none⟩ := by
    intro g
    simp only [mainRun, loadBindings, hload, loadBindingsWith, hcfg, hv, hns]
  exact ⟨hmain gen, (hmain gen).trans (hmain gen').symm, by rw [hmain gen]; simp⟩

theorem namespace_missing_panics_witness :
    (mainRun genStub envNoNamespace argsFileVerify =
        ⟨.panicked "called Option::unwrap on a None value", envNoNamespace.outFS, none⟩
      ∧ mainRun genStub envNoNamespace argsFileVerify =
        mainRun genStub envNoNamespace argsFileVerify
      ∧ (mainRun genStub envNoNamespace argsFileVerify).outcome ≠ .exit 1) :=
  namespace_missing_panics genStub genStub envNoNamespace argsFileVerify
    ⟨some "1.2.3", some ["r"], "mylib"⟩ ⟨[], none⟩ ⟨1, 2, 3⟩
    rfl (by decide) (by decide) rfl

/-- C2 counterexample: with the namespace omitted (and everything else
loading), the outcome of the run is a panic aborting the process, not an exit
with code 1, and the output file stays absent. -/
theorem namespace_missing_not_exit1 :
    (mainRun genStub envNoNamespace argsFileVerify).outcome =
        .panicked "called Option::unwrap on a None value"
      ∧ ¬ ((mainRun genStub envNoNamespace argsFileVerify).outcome = .exit 1)
      ∧ (mainRun genStub envNoNamespace argsFileVerify).files "out.h" = none := by
  refine ⟨by decide, by decide, rfl⟩

/-- C3 (amended): for every run where the located binding crate declared
version string does not parse as a semantic version (or is absent), the
pipeline fails before generation — the result is the same for every
generator, and no recoverable default version is substituted — but it
does so by panicking on the `expect` (aborting the process), not by
returning an error that makes the process exit with code 1; no output
file is created or modified. -/
theorem version_parse_failure_panics (gen gen' : Generator) (env : Env) (args : CliArgs)
    (lib : CargoLib) (cfg : Config)
    (hload : env.cargoLoad = .ok lib)
    (hcfg : resolveConfig env.cfgFS lib.crateDir (args.input.getD env.cwd) = .ok cfg)
    (hv : lib.version.bind (fun s => env.semverParse s) = none) :
    mainRun gen env args = ⟨.panicked "Failed to parse crate version", env.outFS, none⟩
      ∧ mainRun gen env args = mainRun gen' env args
      ∧ (mainRun gen env args).outcome ≠ .exit 1 := by
  have hmain : ∀ g : Generator, mainRun g env args =
      ⟨.panicked "Failed to parse crate version", env.outFS, none⟩ := by
    intro g
    simp only [mainRun, loadBindings, hload, loadBindingsWith, hcfg, hv]
  exact ⟨hmain gen, (hmain gen).trans (hmain gen').symm, by rw [hmain gen]; simp⟩

theorem version_parse_failure_panics_witness :
    (mainRun genStub envBadVersion argsFileVerify =
        ⟨.panicked "Failed to parse crate version", envBadVersion.outFS, none⟩
      ∧ mainRun genStub envBadVersion argsFileVerify =
        mainRun genStub envBadVersion argsFileVerify
      ∧ (mainRun genStub envBadVersion argsFileVerify).outcome ≠ .exit 1) :=
  version_parse_failure_panics genStub genStub envBadVersion argsFileVerify
    ⟨some "garbage", some ["r"], "mylib"⟩ ⟨[], none⟩
    rfl (by decide) (by decide)

/-- C3 counterexample: with the unparsable version string `garbage`, the
outcome of the run is a panic aborting the process, not an exit with code 1. -/
theorem version_parse_failure_not_exit1 :
    (mainRun genStub envBadVersion argsFileVerify).outcome =
        .panicked "Failed to parse crate version"
      ∧ ¬ ((mainRun genStub envBadVersion argsFileVerify).outcome = .exit 1)
      ∧ (mainRun genStub envBadVersion argsFileVerify).files "out.h" = none := by
  refine ⟨by decide, by decide, rfl⟩

theorem parseConfigEntries_unknown_field :
    ∀ (entries : List (String × TomlValue)) (si : Option (List String))
      (ns : Option (Option String)),
      (∃ e ∈ entries, e.1 ≠ "sys_includes" ∧ e.1 ≠ "namespace") →
      ∃ msg, parseConfigEntries entries si ns = .error msg := by
  intro entries
  induction entries with
  | nil => intro si ns h; simp at h
  | cons e rest ih =>
    intro si ns h
    obtain ⟨k, v⟩ := e
    by_cases hk1 : k = "sys_includes"
    · subst hk1
      have hr : ∃ e ∈ rest, e.1 ≠ "sys_includes" ∧ e.1 ≠ "namespace" := by
        rcases h with ⟨e, he, h1, h2⟩
        rcases List.mem_cons.mp he with rfl | he'
        · simp at h1
        · exact ⟨e, he', h1, h2⟩
      cases si with
      | some l => exact ⟨"duplicate field sys_includes", by simp [parseConfigEntries]⟩
      | none =>
        cases v with
        | strList l =>
          obtain ⟨msg, hmsg⟩ := ih (some l) ns hr
          exact ⟨msg, by simpa [parseConfigEntries] using hmsg⟩
        | str s => exact ⟨"invalid type for sys_includes", by simp [parseConfigEntries]⟩
        | other => exact ⟨"invalid type for sys_includes", by simp [parseConfigEntries]⟩
    · by_cases hk2 : k = "namespace"
      · subst hk2
        have hr : ∃ e ∈ rest, e.1 ≠ "sys_includes" ∧ e.1 ≠ "namespace" := by
          rcases h with ⟨e, he, h1, h2⟩
          rcases List.mem_cons.mp he with rfl | he'
          · simp at h2
          · exact ⟨e, he', h1, h2⟩
        cases ns with
        | some l =>
          exact ⟨"duplicate field namespace", by simp [parseConfigEntries, hk1]⟩
        | none =>
          cases v with
          | str s =>
            obtain ⟨msg, hmsg⟩ := ih si (some (some s)) hr
            exact ⟨msg, by simpa [parseConfigEntries, hk1] using hmsg⟩
          | strList l =>
            exact ⟨"invalid type for namespace", by simp [parseConfigEntries, hk1]⟩
          | other =>
            exact ⟨"invalid type for namespace", by simp [parseConfigEntries, hk1]⟩
      · exact ⟨"unknown field " ++ k, by simp [parseConfigEntries, hk1, hk2]⟩

theorem from_file_wraps_parse_error (fs : ConfigFS) (path : List String)
    (content : ConfigFileContent) (e : String)
    (hr : fs.read path = some content) (he : tomlFromStr content = .error e) :
    Config.from_file fs path = .error ("Couldn\x27t parse config file: " ++ e ++ ".") := by
  simp [Config.from_file, hr, he]

theorem from_root_panics_on_parse_error (fs : ConfigFS) (root : List String)
    (content : ConfigFileContent) (e : String)
    (hex : fs.exist (root ++ ["gbindgen.toml"]) = true)
    (hr : fs.read (root ++ ["gbindgen.toml"]) = some content)
    (he : tomlFromStr content = .error e) :
    Config.from_root_or_default fs root =
      .panicked ("Couldn\x27t parse config file: " ++ e ++ ".") := by
  simp [Config.from_root_or_default, hex,
    from_file_wraps_parse_error fs _ content e hr he]

/-- C4 (amended): for every configuration file containing an unrecognized
field or any syntax error, the typed parse fails — so `Config::from_file`
returns an error carrying the underlying parse message and never returns
a partial `Config` — but on the pipeline path `Config::from_root_or_default`
unwraps that error, so the run aborts with a panic instead of reaching
the error arm of `main` and exiting with code 1; no output file is touched. -/
theorem config_parse_error_fatal_panic :
    (∀ (entries : List (String × TomlValue)) (si : Option (List String))
        (ns : Option (Option String)),
      (∃ e ∈ entries, e.1 ≠ "sys_includes" ∧ e.1 ≠ "namespace") →
      ∃ msg, parseConfigEntries entries si ns = .error msg)
    ∧ (∀ (fs : ConfigFS) (path : List String) (content : ConfigFileContent) (e : String),
      fs.read path = some content → tomlFromStr content = .error e →
      Config.from_file fs path = .error ("Couldn\x27t parse config file: " ++ e ++ "."))
    ∧ (∀ (gen : Generator) (env : Env) (args : CliArgs) (lib : CargoLib)
        (content : ConfigFileContent) (e : String) (root : List String),
      env.cargoLoad = .ok lib → lib.crateDir = some root →
      env.cfgFS.exist (root ++ ["gbindgen.toml"]) = true →
      env.cfgFS.read (root ++ ["gbindgen.toml"]) = some content →
      tomlFromStr content = .error e →
      mainRun gen env args =
          ⟨.panicked ("Couldn\x27t parse config file: " ++ e ++ "."), env.outFS, none⟩
        ∧ (mainRun gen env args).outcome ≠ .exit 1) := by
  refine ⟨parseConfigEntries_unknown_field, from_file_wraps_parse_error, ?_⟩
  intro gen env args lib content e root hload hdir hex hr he
  have hcfg : resolveConfig env.cfgFS lib.crateDir (args.input.getD env.cwd) =
      .panicked ("Couldn\x27t parse config file: " ++ e ++ ".") := by
    rw [hdir]
    exact from_root_panics_on_parse_error env.cfgFS root content e hex hr he
  constructor
  · simp only [mainRun, loadBindings, hload, loadBindingsWith, hcfg]
  · simp only [mainRun, loadBindings, hload, loadBindingsWith, hcfg]
    simp

theorem config_parse_error_fatal_panic_witness :
    (∃ msg, parseConfigEntries [("unknown_field", TomlValue.other)] none none =
        .error msg)
      ∧ Config.from_file (fsTableR [("unknown_field", TomlValue.other)])
          ["r", "gbindgen.toml"] =
        .error "Couldn\x27t parse config file: unknown field unknown_field."
      ∧ (mainRun genStub envUnknownField argsFileVerify =
          ⟨.panicked "Couldn\x27t parse config file: unknown field unknown_field.",
            envUnknownField.outFS, none⟩
        ∧ (mainRun genStub envUnknownField argsFileVerify).outcome ≠ .exit 1) := by
  refine ⟨config_parse_error_fatal_panic.1 _ none none
      ⟨("unknown_field", TomlValue.other), by simp, by decide, by decide⟩,
    config_parse_error_fatal_panic.2.1 _ _ (.table [("unknown_field", TomlValue.other)])
      "unknown field unknown_field" rfl rfl,
    config_parse_error_fatal_panic.2.2 genStub envUnknownField argsFileVerify
      ⟨some "1.2.3", some ["r"], "mylib"⟩ (.table [("unknown_field", TomlValue.other)])
      "unknown field unknown_field" ["r"] rfl rfl (by decide) rfl rfl⟩

/-- C4 counterexample: a configuration file with the single unrecognized
field `unknown_field` makes the run panic — aborting the process — rather
than exit with code 1. -/
theorem config_parse_error_not_exit1 :
    (mainRun genStub envUnknownField argsFileVerify).outcome =
        .panicked "Couldn\x27t parse config file: unknown field unknown_field."
      ∧ ¬ ((mainRun genStub envUnknownField argsFileVerify).outcome = .exit 1) := by
  refine ⟨by decide, by decide⟩

theorem tableSysIncludes_eq_none (entries : List (String × TomlValue))
    (h : "sys_includes" ∉ entries.map Prod.fst) : tableSysIncludes entries = none := by
  induction entries with
  | nil => rfl
  | cons e rest ih =>
    simp only [List.map_cons, List.mem_cons, not_or] at h
    simp only [tableSysIncludes, List.findSome?_cons]
    rw [if_neg (fun hk => h.1 hk.symm)]
    exact ih h.2

theorem tableNamespace_eq_none (entries : List (String × TomlValue))
    (h : "namespace" ∉ entries.map Prod.fst) : tableNamespace entries = none := by
  induction entries with
  | nil => rfl
  | cons e rest ih =>
    simp only [List.map_cons, List.mem_cons, not_or] at h
    simp only [tableNamespace, List.findSome?_cons]
    rw [if_neg (fun hk => h.1 hk.symm)]
    exact ih h.2

theorem parseConfigEntries_valid (entries : List (String × TomlValue)) :
    ∀ (si : Option (List String)) (ns : Option (Option String)),
      (∀ e ∈ entries, entryOk e = true) →
      (entries.map Prod.fst).Nodup →
      ("sys_includes" ∈ entries.map Prod.fst → si = none) →
      ("namespace" ∈ entries.map Prod.fst → ns = none) →
      parseConfigEntries entries si ns =
        .ok ⟨((tableSysIncludes entries).orElse fun _ => si).getD [],
          (((tableNamespace entries).map some).orElse fun _ => ns).getD none⟩ := by
  induction entries with
  | nil =>
    intro si ns _ _ _ _
    simp [parseConfigEntries, tableSysIncludes, tableNamespace]
  | cons e rest ih =>
    obtain ⟨k, v⟩ := e
    intro si ns hok hnd hsi hns
    have hek := hok (k, v) (List.mem_cons_self _ _)
    simp only [List.map_cons, List.nodup_cons] at hnd
    by_cases hk1 : k = "sys_includes"
    · subst hk1
      cases v with
      | strList l =>
        have hsi0 : si = none := hsi (by simp)
        subst hsi0
        have hrec := ih (some l) ns (fun e he => hok e (List.mem_cons_of_mem _ he)) hnd.2
          (fun hmem => absurd hmem hnd.1) (fun hmem => hns (by simp [hmem]))
        rw [tableSysIncludes_eq_none rest hnd.1] at hrec
        simp only [parseConfigEntries, if_pos rfl]
        rw [hrec]
        simp only [tableSysIncludes, tableNamespace, List.findSome?_cons, if_pos rfl]
        rw [if_neg (by decide : ¬ ("sys_includes" : String) = "namespace")]
        simp
      | str s => simp [entryOk] at hek
      | other => simp [entryOk] at hek
    · by_cases hk2 : k = "namespace"
      · subst hk2
        cases v with
        | str s =>
          have hns0 : ns = none := hns (by simp)
          subst hns0
          have hrec := ih si (some (some s)) (fun e he => hok e (List.mem_cons_of_mem _ he))
            hnd.2 (fun hmem => hsi (by simp [hmem])) (fun hmem => absurd hmem hnd.1)
          rw [tableNamespace_eq_none rest hnd.1] at hrec
          simp only [parseConfigEntries, if_neg hk1, if_pos rfl] at *
          rw [hrec]
          simp only [tableSysIncludes, tableNamespace, List.findSome?_cons, if_pos rfl]
          rw [if_neg (by decide : ¬ ("namespace" : String) = "sys_includes")]
          simp
        | strList l => simp [entryOk, hk1] at hek
        | other => simp [entryOk, hk1] at hek
      · simp [entryOk, hk1, hk2] at hek

/-- C5: for every root directory in which `gbindgen.toml` is absent,
`Config::from_root_or_default` returns the all-default configuration
(empty `sys_includes`, no namespace), which is not an error; and for
every valid configuration file — only recognized, correctly-typed,
non-repeated fields — the typed parse returns a configuration whose
fields exactly match the entries of the file. -/
theorem config_absent_default_and_exact_match :
    (∀ (fs : ConfigFS) (root : List String),
      fs.exist (root ++ ["gbindgen.toml"]) = false →
      Config.from_root_or_default fs root = .ok ⟨[], none⟩)
    ∧ (∀ entries : List (String × TomlValue),
      (∀ e ∈ entries, entryOk e = true) → (entries.map Prod.fst).Nodup →
      tomlFromStr (.table entries) =
        .ok ⟨(tableSysIncludes entries).getD [], tableNamespace entries⟩) := by
  constructor
  · intro fs root h
    simp [Config.from_root_or_default, h, Config.default]
  · intro entries hok hnd
    have h := parseConfigEntries_valid entries none none hok hnd
      (fun _ => rfl) (fun _ => rfl)
    simp only [tomlFromStr, h]
    cases hsi : tableSysIncludes entries <;> cases hns : tableNamespace entries <;> simp

theorem config_absent_default_and_exact_match_witness :
    Config.from_root_or_default fsNoConfig ["r"] = .ok ⟨[], none⟩
      ∧ tomlFromStr
          (.table [("sys_includes", TomlValue.strList ["glib.h"]),
            ("namespace", TomlValue.str "MyLib")]) =
        .ok ⟨["glib.h"], some "MyLib"⟩ := by
  constructor
  · exact config_absent_default_and_exact_match.1 fsNoConfig ["r"] rfl
  · have h := config_absent_default_and_exact_match.2
      [("sys_includes", TomlValue.strList ["glib.h"]), ("namespace", TomlValue.str "MyLib")]
      (by decide) (by decide)
    exact h.trans (by rfl)

/-- C7: in file mode with the verify directive active and generation
successful, the output file is always written — after the run the file
holds the artifact content, created if it was previously absent — and
only then is drift reported: the run exits 2 exactly when the written
content differs from the prior content of the file (a previously absent file
counting as differing), and 0 when it is identical. -/
theorem verify_writes_then_reports (gen : Generator) (env : Env) (args : CliArgs)
    (b : Bindings) (file : String)
    (hok : loadBindings gen env (args.input.getD env.cwd) = .ok b)
    (hout : args.out = some file) (hver : args.verify = true) :
    (mainRun gen env args).files file = some b.content
      ∧ (mainRun gen env args).outcome =
        (if env.outFS file == some b.content then .exit 0 else .exit 2) := by
  simp only [mainRun, hok, hout, hver, Bindings.write_to_file]
  cases h : env.outFS file == some b.content <;> simp [h]

theorem verify_writes_then_reports_witness :
    (mainRun genStub envOk argsFileVerify).files "out.h" = some "bindings content"
      ∧ (mainRun genStub envOk argsFileVerify).outcome =
        (if envOk.outFS "out.h" == some "bindings content"
          then .exit 0 else .exit 2) :=
  verify_writes_then_reports genStub envOk argsFileVerify ⟨"bindings content"⟩ "out.h"
    (by decide) rfl rfl

/-- C9: when the directory of the binding crate cannot be located within the
given input path (`find_crate_dir` returned nothing), `load_bindings`
resolves the configuration by treating the input path itself as the
root — the documented degraded fallback — rather than failing or
skipping configuration loading. -/
theorem locate_fallback_input_root (gen : Generator) (env : Env) (input : List String)
    (lib : CargoLib)
    (hload : env.cargoLoad = .ok lib) (hdir : lib.crateDir = none) :
    resolveConfig env.cfgFS lib.crateDir input =
        Config.from_root_or_default env.cfgFS input
      ∧ loadBindings gen env input =
        loadBindingsWith gen env lib (Config.from_root_or_default env.cfgFS input) := by
  rw [hdir]
  exact ⟨rfl, by simp [loadBindings, hload, resolveConfig, hdir]⟩

theorem locate_fallback_input_root_witness :
    resolveConfig envNoDir.cfgFS none ["in"] =
        Config.from_root_or_default envNoDir.cfgFS ["in"]
      ∧ loadBindings genStub envNoDir ["in"] =
        loadBindingsWith genStub envNoDir ⟨some "1.2.3", none, "mylib"⟩
          (Config.from_root_or_default envNoDir.cfgFS ["in"]) :=
  locate_fallback_input_root genStub envNoDir ["in"] ⟨some "1.2.3", none, "mylib"⟩ rfl rfl

/-- C10: in stream mode (no output path supplied) the verify flag is
never consulted: every run that reaches output with no output path
streams the artifact to standard output and exits with code 0 whether or
not `--verify` was passed, leaving all files untouched — so drift can
only ever be reported in file mode. -/
theorem stream_mode_ignores_verify (gen : Generator) (env : Env) (args : CliArgs)
    (b : Bindings)
    (hok : loadBindings gen env (args.input.getD env.cwd) = .ok b)
    (hout : args.out = none) :
    mainRun gen env args = ⟨.exit 0, env.outFS, some b.content⟩
      ∧ mainRun gen env ⟨args.input, args.out, true⟩ =
        mainRun gen env ⟨args.input, args.out, false⟩ := by
  constructor
  · simp only [mainRun, hok, hout]
  · simp only [mainRun, hok, hout]

theorem stream_mode_ignores_verify_witness :
    mainRun genStub envOk argsStream = ⟨.exit 0, envOk.outFS, some "bindings content"⟩
      ∧ mainRun genStub envOk ⟨argsStream.input, argsStream.out, true⟩ =
        mainRun genStub envOk ⟨argsStream.input, argsStream.out, false⟩ :=
  stream_mode_ignores_verify genStub envOk argsStream ⟨"bindings content"⟩ (by decide) rfl
